import Mathlib

/-!
Verification of the subscription-lifecycle reconciliation core of the
razorpay-subscription-handling repository.

The embedding mirrors the TypeScript source:

* `src/lib/billing-config.ts` — plan catalog and billing math.
* `src/lib/firebase.ts` — the tier record schema and store operations.
* `src/app/api/webhook/route.ts` — the webhook reconciliation handlers
  (the file holds two revisions; both are embedded where claims cite them).
* `src/app/api/change-plan/route.ts` — the plan-change decision pipeline.
* `src/unnamed/part_003` — the upgrade-subscription revision (UPI upgrade flow).

Conventions of the embedding:

* ISO-8601 timestamp strings stored in the record are represented by their
  epoch value in milliseconds (`Int`); the conversion `new Date(secs * 1000)
  .toISOString()` therefore becomes `secs * 1000`.  Ordering and equality of
  valid ISO strings agree with ordering and equality of these numbers.
* Razorpay webhook entities carry epoch seconds (`current_start`,
  `current_end`, `ended_at`); those stay in seconds.
* JavaScript truthiness is modelled explicitly: a missing field is `none`,
  an empty string and the number 0 are falsy where the source tests them
  with `!x` or `x && …`.
* Firestore writes happen through `updateUserTier`, which is a no-op when no
  record exists for the user (the query in `src/lib/firebase.ts` returns
  empty and the function returns null).
* The notification side effect of `handleSubscriptionActivated` is modelled
  as a counter in the handler's result.
-/

namespace RazorpaySub

/-- Subscription tiers of the `TierEntity` schema in `src/lib/firebase.ts`. -/
inductive Tier
  | NONE
  | BASIC
  | PRO
  | TRIAL
deriving DecidableEq

/-- Renewal periods of the billing schema. -/
inductive RenewalPeriod
  | MONTHLY
  | ANNUAL
deriving DecidableEq

/-- Result type of `getPlanDetails` in `src/lib/billing-config.ts`. -/
structure PlanDetails where
  tier : Tier
  renewalPeriod : RenewalPeriod
  amount : Int
deriving DecidableEq

/-- Plan catalog of `src/lib/billing-config.ts` (first revision, four plans). -/
def getPlanDetails (planId : String) : Option PlanDetails :=
  if planId = "plan_R7G6hu5lBKJdpl" then some ⟨.BASIC, .MONTHLY, 8900⟩
  else if planId = "plan_R7G7VNbsYt55dG" then some ⟨.PRO, .MONTHLY, 12900⟩
  else if planId = "plan_R7G8xw8x4WDSoM" then some ⟨.BASIC, .ANNUAL, 74900⟩
  else if planId = "plan_R7G9duBj5HV9Oz" then some ⟨.PRO, .ANNUAL, 108900⟩
  else none

/-- Billing sub-record of `TierEntity` (`src/lib/firebase.ts`) restricted to
the fields the webhook route of `src/app/api/webhook/route.ts` (first
revision) reads or writes.  Timestamps are epoch milliseconds. -/
structure BillingInfo where
  renewalPeriod : Option RenewalPeriod
  trialStartDate : Option Int
  trialEndDate : Option Int
  subscriptionStartDate : Option Int
  subscriptionEndDate : Option Int
  razorpaySubscriptionId : Option String
  razorpayCustomerId : Option String
  paymentMethod : Option String
  isCancelled : Option Bool
  cancellationDate : Option Int
  isConfirmationSent : Option Bool
deriving DecidableEq

/-- The per-user tier record (`TierEntity` of `src/lib/firebase.ts`), keyed
by user id in the store; `entityType`, `userId` and the store-managed
`createdAt` / `updatedAt` timestamps are left implicit. -/
structure TierEntity where
  tier : Tier
  billing : Option BillingInfo
deriving DecidableEq

/-- Webhook event types dispatched by the POST handler of
`src/app/api/webhook/route.ts` (first revision); `other` stands for any
unhandled event type. -/
inductive EventType
  | activated
  | charged
  | completed
  | authenticated
  | resumed
  | cancelled
  | updated
  | pending
  | other
deriving DecidableEq

/-- The subscription entity of a Razorpay webhook payload, restricted to the
fields the first-revision webhook route consumes.  `current_start`,
`current_end` and `ended_at` are epoch seconds; `notesUserId` is
`notes.userId` (already stripped of the `USER#` prefix, which the route
removes before any use). -/
structure SubEntity where
  id : String
  plan_id : String
  customer_id : Option String
  current_start : Int
  current_end : Int
  ended_at : Option Int
  payment_method : Option String
  notesUserId : Option String
deriving DecidableEq

/-- Reads `billing?.isConfirmationSent` from an optional record. -/
def confirmationFlag (r : Option TierEntity) : Option Bool :=
  (r.bind TierEntity.billing).bind BillingInfo.isConfirmationSent

/-- The webhook revision's `updateUserTier(userId, tier, billing)` call:
setting the record's `tier` and `billing` fields.  As in
`src/lib/firebase.ts`, the update is a no-op when no record exists for the
user. -/
def updateUserTier (r : Option TierEntity) (tier : Tier) (billing : BillingInfo) :
    Option TierEntity :=
  r.map fun _ => ⟨tier, some billing⟩

/-- `updateSubscriptionStatus` of `src/app/api/webhook/route.ts` lines
274-314: rewrite the billing record from the event payload, preserving only
the existing `isConfirmationSent` flag (spread only when defined). -/
def updateSubscriptionStatus (sub : SubEntity) (pd : PlanDetails) (r : Option TierEntity) :
    Option TierEntity :=
  let existingSent := confirmationFlag r
  let billing : BillingInfo :=
    { renewalPeriod := some pd.renewalPeriod
      subscriptionStartDate := some (sub.current_start * 1000)
      subscriptionEndDate := some (sub.current_end * 1000)
      razorpaySubscriptionId := some sub.id
      razorpayCustomerId := sub.customer_id
      paymentMethod := sub.payment_method
      trialStartDate := none
      trialEndDate := none
      isCancelled := some false
      cancellationDate := none
      isConfirmationSent := existingSent }
  updateUserTier r pd.tier billing

/-- `handleSubscriptionActivated` of `src/app/api/webhook/route.ts` lines
204-261.  The returned number counts firings of the confirmation
notification side effect.  The flag is read before the status update; after
the (modelled) send, the record is re-read and rewritten with
`isConfirmationSent := true` and every other billing field carried over
(`x || null` on the nullable fields, plain carry-over on the optional
ones). -/
def handleSubscriptionActivated (sub : SubEntity) (pd : PlanDetails) (r : Option TierEntity) :
    Option TierEntity × Nat :=
  let isAlreadySent := confirmationFlag r = some true
  let r1 := updateSubscriptionStatus sub pd r
  if isAlreadySent then
    (r1, 0)
  else
    match r1 with
    | none => (none, 1)
    | some t1 =>
      let b := t1.billing
      let updatedBilling : BillingInfo :=
        { renewalPeriod := b.bind BillingInfo.renewalPeriod
          trialStartDate := b.bind BillingInfo.trialStartDate
          trialEndDate := b.bind BillingInfo.trialEndDate
          subscriptionStartDate := b.bind BillingInfo.subscriptionStartDate
          subscriptionEndDate := b.bind BillingInfo.subscriptionEndDate
          razorpaySubscriptionId := b.bind BillingInfo.razorpaySubscriptionId
          razorpayCustomerId := b.bind BillingInfo.razorpayCustomerId
          paymentMethod := b.bind BillingInfo.paymentMethod
          isCancelled := b.bind BillingInfo.isCancelled
          cancellationDate := b.bind BillingInfo.cancellationDate
          isConfirmationSent := some true }
      (updateUserTier (some t1) t1.tier updatedBilling, 1)

/-- `handleSubscriptionCancelled` of `src/app/api/webhook/route.ts` lines
317-380.  `nowSec` is `Math.floor(Date.now() / 1000)`; the truthiness test
`subscription.ended_at && subscription.ended_at <= now` makes an `ended_at`
of 0 falsy, so it lands in the grace-period branch.  The cancellation
timestamp is stored as the current time in milliseconds. -/
def handleSubscriptionCancelled (nowSec : Int) (sub : SubEntity) (r : Option TierEntity) :
    Option TierEntity :=
  match r with
  | none => none
  | some t =>
    let hasEnded : Bool :=
      match sub.ended_at with
      | none => false
      | some e => if e = 0 then false else decide (e ≤ nowSec)
    if hasEnded then
      let billing : BillingInfo :=
        { renewalPeriod := none
          subscriptionStartDate := none
          subscriptionEndDate := none
          razorpaySubscriptionId := none
          razorpayCustomerId := (t.billing).bind BillingInfo.razorpayCustomerId
          paymentMethod := (t.billing).bind BillingInfo.paymentMethod
          trialStartDate := none
          trialEndDate := none
          isConfirmationSent := some false
          isCancelled := some true
          cancellationDate := some (nowSec * 1000) }
      updateUserTier (some t) .NONE billing
    else
      let billing : BillingInfo :=
        { renewalPeriod := (t.billing).bind BillingInfo.renewalPeriod
          trialStartDate := (t.billing).bind BillingInfo.trialStartDate
          trialEndDate := (t.billing).bind BillingInfo.trialEndDate
          subscriptionStartDate := (t.billing).bind BillingInfo.subscriptionStartDate
          subscriptionEndDate := (t.billing).bind BillingInfo.subscriptionEndDate
          razorpayCustomerId := (t.billing).bind BillingInfo.razorpayCustomerId
          paymentMethod := (t.billing).bind BillingInfo.paymentMethod
          isConfirmationSent := (t.billing).bind BillingInfo.isConfirmationSent
          isCancelled := some true
          cancellationDate := some (nowSec * 1000)
          razorpaySubscriptionId := none }
      updateUserTier (some t) t.tier billing

/-- The POST handler of `src/app/api/webhook/route.ts` lines 49-201 after
signature verification and JSON parsing: drop the event when
`notes.userId` is missing or empty or the plan id is unknown, otherwise
dispatch on the event type.  `subscription.pending` and unhandled event
types only log.  The second component counts confirmation-notification
firings. -/
def applyGatewayEvent (nowSec : Int) (etype : EventType) (sub : SubEntity)
    (r : Option TierEntity) : Option TierEntity × Nat :=
  match sub.notesUserId with
  | none => (r, 0)
  | some u =>
    if u = "" then (r, 0)
    else
      match getPlanDetails sub.plan_id with
      | none => (r, 0)
      | some pd =>
        match etype with
        | .activated => handleSubscriptionActivated sub pd r
        | .completed => (updateSubscriptionStatus sub pd r, 0)
        | .charged => (updateSubscriptionStatus sub pd r, 0)
        | .authenticated => (updateSubscriptionStatus sub pd r, 0)
        | .resumed => (updateSubscriptionStatus sub pd r, 0)
        | .cancelled => (handleSubscriptionCancelled nowSec sub r, 0)
        | .updated => (updateSubscriptionStatus sub pd r, 0)
        | .pending => (r, 0)
        | .other => (r, 0)

/-- C1: for every gateway event and every starting record, applying the
webhook handler twice in succession with the same event yields the same
final stored record as applying it once, and the second application fires
no confirmation notification (hence changes no tier, billing-period or
cancellation field to a different value). -/
theorem webhook_apply_idempotent (nowSec : Int) (e : EventType) (sub : SubEntity)
    (r : TierEntity) :
    applyGatewayEvent nowSec e sub (applyGatewayEvent nowSec e sub (some r)).1 =
      ((applyGatewayEvent nowSec e sub (some r)).1, 0) := by
  rcases hu : sub.notesUserId with _ | u
  · simp [applyGatewayEvent, hu]
  · by_cases hue : u = ""
    · simp [applyGatewayEvent, hu, hue]
    · rcases hp : getPlanDetails sub.plan_id with _ | pd
      · simp [applyGatewayEvent, hu, hue, hp]
      · cases e
        · by_cases hc : r.billing.bind BillingInfo.isConfirmationSent = some true
          · simp [applyGatewayEvent, hu, hue, hp, handleSubscriptionActivated, hc,
              updateSubscriptionStatus, updateUserTier, confirmationFlag]
          · simp [applyGatewayEvent, hu, hue, hp, handleSubscriptionActivated, hc,
              updateSubscriptionStatus, updateUserTier, confirmationFlag]
        · simp [applyGatewayEvent, hu, hue, hp, updateSubscriptionStatus,
            updateUserTier, confirmationFlag]
        · simp [applyGatewayEvent, hu, hue, hp, updateSubscriptionStatus,
            updateUserTier, confirmationFlag]
        · simp [applyGatewayEvent, hu, hue, hp, updateSubscriptionStatus,
            updateUserTier, confirmationFlag]
        · simp [applyGatewayEvent, hu, hue, hp, updateSubscriptionStatus,
            updateUserTier, confirmationFlag]
        · rcases he : sub.ended_at with _ | z
          · simp [applyGatewayEvent, hu, hue, hp, handleSubscriptionCancelled, he,
              updateUserTier]
          · by_cases hz : z = 0
            · simp [applyGatewayEvent, hu, hue, hp, handleSubscriptionCancelled, he,
                hz, updateUserTier]
            · by_cases hle : z ≤ nowSec
              · simp [applyGatewayEvent, hu, hue, hp, handleSubscriptionCancelled, he,
                  hz, hle, updateUserTier]
              · simp [applyGatewayEvent, hu, hue, hp, handleSubscriptionCancelled, he,
                  hz, hle, updateUserTier]
        · simp [applyGatewayEvent, hu, hue, hp, updateSubscriptionStatus,
            updateUserTier, confirmationFlag]
        · simp [applyGatewayEvent, hu, hue, hp]
        · simp [applyGatewayEvent, hu, hue, hp]

/-- The event family dispatched to `handleSubscriptionActivated` or
`handleSubscriptionActivatedSilent` by the POST switch (lines 150-161):
`subscription.activated`, `subscription.completed`, `subscription.charged`,
`subscription.authenticated`, `subscription.resumed`. -/
def isChargedFamily : EventType → Bool
  | .activated => true
  | .charged => true
  | .completed => true
  | .authenticated => true
  | .resumed => true
  | _ => false

/-- Sequential application of webhook deliveries to one user's record,
accumulating the number of confirmation-notification firings. -/
def runEvents (nowSec : Int) :
    List (EventType × SubEntity) → Option TierEntity → Option TierEntity × Nat
  | [], r => (r, 0)
  | p :: rest, r =>
    ((runEvents nowSec rest (applyGatewayEvent nowSec p.1 p.2 r).1).1,
     (applyGatewayEvent nowSec p.1 p.2 r).2 +
       (runEvents nowSec rest (applyGatewayEvent nowSec p.1 p.2 r).1).2)

/-- One step of the activated/charged family on an existing record: the
record still exists afterwards, and either no notification fires and the
confirmation flag is carried over unchanged, or exactly one fires, the
event is `subscription.activated`, the flag was not yet true and is true
afterwards. -/
lemma family_step (nowSec : Int) (e : EventType) (s : SubEntity) (t : TierEntity)
    (hf : isChargedFamily e = true) :
    ((applyGatewayEvent nowSec e s (some t)).1.isSome) ∧
    (((applyGatewayEvent nowSec e s (some t)).2 = 0 ∧
        confirmationFlag (applyGatewayEvent nowSec e s (some t)).1 =
          confirmationFlag (some t)) ∨
      ((applyGatewayEvent nowSec e s (some t)).2 = 1 ∧ e = .activated ∧
        confirmationFlag (applyGatewayEvent nowSec e s (some t)).1 = some true ∧
        ¬ confirmationFlag (some t) = some true)) := by
  rcases hu : s.notesUserId with _ | u
  · simp [applyGatewayEvent, hu, confirmationFlag]
  · by_cases hue : u = ""
    · simp [applyGatewayEvent, hu, hue, confirmationFlag]
    · rcases hp : getPlanDetails s.plan_id with _ | pd
      · simp [applyGatewayEvent, hu, hue, hp, confirmationFlag]
      · cases e
        · by_cases hc : t.billing.bind BillingInfo.isConfirmationSent = some true
          · simp [applyGatewayEvent, hu, hue, hp, handleSubscriptionActivated, hc,
              updateSubscriptionStatus, updateUserTier, confirmationFlag]
          · simp [applyGatewayEvent, hu, hue, hp, handleSubscriptionActivated, hc,
              updateSubscriptionStatus, updateUserTier, confirmationFlag]
        · simp [applyGatewayEvent, hu, hue, hp, updateSubscriptionStatus,
            updateUserTier, confirmationFlag]
        · simp [applyGatewayEvent, hu, hue, hp, updateSubscriptionStatus,
            updateUserTier, confirmationFlag]
        · simp [applyGatewayEvent, hu, hue, hp, updateSubscriptionStatus,
            updateUserTier, confirmationFlag]
        · simp [applyGatewayEvent, hu, hue, hp, updateSubscriptionStatus,
            updateUserTier, confirmationFlag]
        · simp [isChargedFamily] at hf
        · simp [isChargedFamily] at hf
        · simp [isChargedFamily] at hf
        · simp [isChargedFamily] at hf

/-- C2: across any sequence of activated / charged / completed /
authenticated / resumed deliveries for one existing record, the
confirmation notification fires at most once; whenever it fired, the
confirmation flag is true afterwards and some `subscription.activated`
event occurs in the sequence (the other event types are handled silently);
and once the flag is true it is never reset within this family, with no
further firing. -/
theorem confirmation_at_most_once (nowSec : Int) (es : List (EventType × SubEntity))
    (t : TierEntity) (hes : ∀ p ∈ es, isChargedFamily p.1 = true) :
    (runEvents nowSec es (some t)).2 ≤ 1 ∧
    ((runEvents nowSec es (some t)).2 = 1 →
       confirmationFlag (runEvents nowSec es (some t)).1 = some true ∧
       (.activated : EventType) ∈ es.map Prod.fst) ∧
    (confirmationFlag (some t) = some true →
       (runEvents nowSec es (some t)).2 = 0 ∧
       confirmationFlag (runEvents nowSec es (some t)).1 = some true) := by
  induction es generalizing t with
  | nil => simp [runEvents]
  | cons p rest ih =>
    have hf : isChargedFamily p.1 = true := hes p (by simp)
    have hrest : ∀ q ∈ rest, isChargedFamily q.1 = true := fun q hq => hes q (by simp [hq])
    obtain ⟨hsome, hstep⟩ := family_step nowSec p.1 p.2 t hf
    obtain ⟨t1, ht1⟩ := Option.isSome_iff_exists.mp hsome
    have ihm := ih t1 hrest
    rcases hstep with ⟨h0, hpres⟩ | ⟨h1, hact, hflag1, hnot⟩
    · refine ⟨?_, ?_, ?_⟩
      · simp only [runEvents, ht1, h0, Nat.zero_add]
        exact ihm.1
      · intro htot
        simp only [runEvents, ht1, h0, Nat.zero_add] at htot ⊢
        refine ⟨(ihm.2.1 htot).1, ?_⟩
        simp only [List.map_cons, List.mem_cons]
        exact Or.inr (ihm.2.1 htot).2
      · intro hflag
        have hflag1' : confirmationFlag (some t1) = some true := by
          rw [← ht1, hpres]; exact hflag
        have := ihm.2.2 hflag1'
        simp only [runEvents, ht1, h0, Nat.zero_add]
        exact this
    · have hflag1' : confirmationFlag (some t1) = some true := by rw [← ht1]; exact hflag1
      have hzero := ihm.2.2 hflag1'
      refine ⟨?_, ?_, ?_⟩
      · simp only [runEvents, ht1, h1, hzero.1]
        omega
      · intro _
        simp only [runEvents, ht1, hzero.1]
        refine ⟨hzero.2, ?_⟩
        simp only [List.map_cons, List.mem_cons]
        exact Or.inl hact.symm
      · intro hflag
        exact absurd hflag hnot

/-- C2 witness: a concrete activated - charged - activated sequence on a
fresh record fires the notification exactly once and leaves the flag
true. -/
theorem confirmation_at_most_once_witness :
    (∀ p ∈ [((EventType.activated),
              (⟨"sub_1", "plan_R7G6hu5lBKJdpl", none, 100, 200, none, some "upi",
                some "u1"⟩ : SubEntity)),
            ((EventType.charged),
              (⟨"sub_1", "plan_R7G6hu5lBKJdpl", none, 100, 200, none, some "upi",
                some "u1"⟩ : SubEntity)),
            ((EventType.activated),
              (⟨"sub_1", "plan_R7G6hu5lBKJdpl", none, 100, 200, none, some "upi",
                some "u1"⟩ : SubEntity))], isChargedFamily p.1 = true) ∧
    ((runEvents 1000
        [((EventType.activated),
          (⟨"sub_1", "plan_R7G6hu5lBKJdpl", none, 100, 200, none, some "upi",
            some "u1"⟩ : SubEntity)),
         ((EventType.charged),
          (⟨"sub_1", "plan_R7G6hu5lBKJdpl", none, 100, 200, none, some "upi",
            some "u1"⟩ : SubEntity)),
         ((EventType.activated),
          (⟨"sub_1", "plan_R7G6hu5lBKJdpl", none, 100, 200, none, some "upi",
            some "u1"⟩ : SubEntity))]
        (some ⟨Tier.NONE, none⟩)).2 ≤ 1) :=
  ⟨by decide,
   (confirmation_at_most_once 1000 _ ⟨Tier.NONE, none⟩ (by decide)).1⟩

/-- C10: every activated / charged / completed / authenticated / resumed
event that reaches its handler (user id present and non-empty, plan id
known) rewrites the billing record with `isCancelled := false`,
`cancellationDate` cleared and both trial dates set to null, regardless of
the prior record state. -/
theorem charged_family_resets_cancellation (nowSec : Int) (e : EventType)
    (sub : SubEntity) (t : TierEntity) (u : String) (pd : PlanDetails)
    (hf : isChargedFamily e = true) (hu : sub.notesUserId = some u) (hne : u ≠ "")
    (hp : getPlanDetails sub.plan_id = some pd) :
    ((applyGatewayEvent nowSec e sub (some t)).1.bind TierEntity.billing).isSome ∧
    ((applyGatewayEvent nowSec e sub (some t)).1.bind TierEntity.billing).bind
      BillingInfo.isCancelled = some false ∧
    ((applyGatewayEvent nowSec e sub (some t)).1.bind TierEntity.billing).bind
      BillingInfo.cancellationDate = none ∧
    ((applyGatewayEvent nowSec e sub (some t)).1.bind TierEntity.billing).bind
      BillingInfo.trialStartDate = none ∧
    ((applyGatewayEvent nowSec e sub (some t)).1.bind TierEntity.billing).bind
      BillingInfo.trialEndDate = none := by
  cases e
  · by_cases hc : t.billing.bind BillingInfo.isConfirmationSent = some true
    · simp [applyGatewayEvent, hu, hne, hp, handleSubscriptionActivated, hc,
        updateSubscriptionStatus, updateUserTier, confirmationFlag]
    · simp [applyGatewayEvent, hu, hne, hp, handleSubscriptionActivated, hc,
        updateSubscriptionStatus, updateUserTier, confirmationFlag]
  · simp [applyGatewayEvent, hu, hne, hp, updateSubscriptionStatus, updateUserTier,
      confirmationFlag]
  · simp [applyGatewayEvent, hu, hne, hp, updateSubscriptionStatus, updateUserTier,
      confirmationFlag]
  · simp [applyGatewayEvent, hu, hne, hp, updateSubscriptionStatus, updateUserTier,
      confirmationFlag]
  · simp [applyGatewayEvent, hu, hne, hp, updateSubscriptionStatus, updateUserTier,
      confirmationFlag]
  · simp [isChargedFamily] at hf
  · simp [isChargedFamily] at hf
  · simp [isChargedFamily] at hf
  · simp [isChargedFamily] at hf

/-- C10 witness: a record cancelled within its grace period loses the
cancellation marker after a single subscription.charged event for the same
subscription. -/
theorem charged_family_resets_cancellation_witness :
    isChargedFamily .charged = true ∧
    (⟨"sub_1", "plan_R7G6hu5lBKJdpl", none, 100, 200, none, some "upi",
        some "u1"⟩ : SubEntity).notesUserId = some "u1" ∧
    ("u1" : String) ≠ "" ∧
    getPlanDetails "plan_R7G6hu5lBKJdpl" = some ⟨.BASIC, .MONTHLY, 8900⟩ ∧
    (((applyGatewayEvent 1000 .charged
        ⟨"sub_1", "plan_R7G6hu5lBKJdpl", none, 100, 200, none, some "upi", some "u1"⟩
        (some ⟨Tier.BASIC, some
          { renewalPeriod := some .MONTHLY, trialStartDate := none, trialEndDate := none,
            subscriptionStartDate := some 0, subscriptionEndDate := some 2000000,
            razorpaySubscriptionId := some "sub_1", razorpayCustomerId := none,
            paymentMethod := some "upi", isCancelled := some true,
            cancellationDate := some 500000,
            isConfirmationSent := some true }⟩)).1.bind TierEntity.billing).isSome ∧
      ((applyGatewayEvent 1000 .charged
        ⟨"sub_1", "plan_R7G6hu5lBKJdpl", none, 100, 200, none, some "upi", some "u1"⟩
        (some ⟨Tier.BASIC, some
          { renewalPeriod := some .MONTHLY, trialStartDate := none, trialEndDate := none,
            subscriptionStartDate := some 0, subscriptionEndDate := some 2000000,
            razorpaySubscriptionId := some "sub_1", razorpayCustomerId := none,
            paymentMethod := some "upi", isCancelled := some true,
            cancellationDate := some 500000,
            isConfirmationSent := some true }⟩)).1.bind TierEntity.billing).bind
        BillingInfo.isCancelled = some false ∧
      ((applyGatewayEvent 1000 .charged
        ⟨"sub_1", "plan_R7G6hu5lBKJdpl", none, 100, 200, none, some "upi", some "u1"⟩
        (some ⟨Tier.BASIC, some
          { renewalPeriod := some .MONTHLY, trialStartDate := none, trialEndDate := none,
            subscriptionStartDate := some 0, subscriptionEndDate := some 2000000,
            razorpaySubscriptionId := some "sub_1", razorpayCustomerId := none,
            paymentMethod := some "upi", isCancelled := some true,
            cancellationDate := some 500000,
            isConfirmationSent := some true }⟩)).1.bind TierEntity.billing).bind
        BillingInfo.cancellationDate = none ∧
      ((applyGatewayEvent 1000 .charged
        ⟨"sub_1", "plan_R7G6hu5lBKJdpl", none, 100, 200, none, some "upi", some "u1"⟩
        (some ⟨Tier.BASIC, some
          { renewalPeriod := some .MONTHLY, trialStartDate := none, trialEndDate := none,
            subscriptionStartDate := some 0, subscriptionEndDate := some 2000000,
            razorpaySubscriptionId := some "sub_1", razorpayCustomerId := none,
            paymentMethod := some "upi", isCancelled := some true,
            cancellationDate := some 500000,
            isConfirmationSent := some true }⟩)).1.bind TierEntity.billing).bind
        BillingInfo.trialStartDate = none ∧
      ((applyGatewayEvent 1000 .charged
        ⟨"sub_1", "plan_R7G6hu5lBKJdpl", none, 100, 200, none, some "upi", some "u1"⟩
        (some ⟨Tier.BASIC, some
          { renewalPeriod := some .MONTHLY, trialStartDate := none, trialEndDate := none,
            subscriptionStartDate := some 0, subscriptionEndDate := some 2000000,
            razorpaySubscriptionId := some "sub_1", razorpayCustomerId := none,
            paymentMethod := some "upi", isCancelled := some true,
            cancellationDate := some 500000,
            isConfirmationSent := some true }⟩)).1.bind TierEntity.billing).bind
        BillingInfo.trialEndDate = none) :=
  ⟨rfl, rfl, by decide, rfl,
   charged_family_resets_cancellation 1000 .charged
     ⟨"sub_1", "plan_R7G6hu5lBKJdpl", none, 100, 200, none, some "upi", some "u1"⟩
     ⟨Tier.BASIC, some
       { renewalPeriod := some .MONTHLY, trialStartDate := none, trialEndDate := none,
         subscriptionStartDate := some 0, subscriptionEndDate := some 2000000,
         razorpaySubscriptionId := some "sub_1", razorpayCustomerId := none,
         paymentMethod := some "upi", isCancelled := some true,
         cancellationDate := some 500000, isConfirmationSent := some true }⟩
     "u1" ⟨.BASIC, .MONTHLY, 8900⟩ rfl rfl (by decide) rfl⟩

/-- C3 counterexample: a subscription.charged event for the same stored
subscription id "sub_1" whose period end (epoch second 1000, stored as
millisecond 1000000) is earlier than the already-stored period end
(millisecond 2000000000) is neither rejected nor ignored: the stored
period end moves backward. -/
theorem period_end_moves_backward :
    ((applyGatewayEvent 0 .charged
        ⟨"sub_1", "plan_R7G6hu5lBKJdpl", none, 500, 1000, none, some "upi", some "u1"⟩
        (some ⟨Tier.BASIC, some
          { renewalPeriod := some .MONTHLY, trialStartDate := none, trialEndDate := none,
            subscriptionStartDate := some 0, subscriptionEndDate := some 2000000000,
            razorpaySubscriptionId := some "sub_1", razorpayCustomerId := none,
            paymentMethod := some "upi", isCancelled := some false,
            cancellationDate := none,
            isConfirmationSent := some true }⟩)).1.bind TierEntity.billing).bind
      BillingInfo.subscriptionEndDate = some 1000000 ∧
    (1000000 : Int) < 2000000000 := by
  constructor
  · rfl
  · decide

/-- C3 amended: for charged and updated events that reach the handler, the
stored period end is blindly overwritten with the event's `current_end`
(last write wins); no monotonicity check exists, so the stored value is not
non-decreasing. -/
theorem period_end_last_write_wins (nowSec : Int) (e : EventType) (sub : SubEntity)
    (t : TierEntity) (u : String) (pd : PlanDetails)
    (he : e = .charged ∨ e = .updated) (hu : sub.notesUserId = some u) (hne : u ≠ "")
    (hp : getPlanDetails sub.plan_id = some pd) :
    ((applyGatewayEvent nowSec e sub (some t)).1.bind TierEntity.billing).bind
      BillingInfo.subscriptionEndDate = some (sub.current_end * 1000) := by
  rcases he with he | he <;> subst he <;>
    simp [applyGatewayEvent, hu, hne, hp, updateSubscriptionStatus, updateUserTier,
      confirmationFlag]

/-- C3 amended witness: the last-write-wins overwrite evaluated at the
counterexample input. -/
theorem period_end_last_write_wins_witness :
    ((EventType.charged = .charged ∨ EventType.charged = .updated) ∧
      (⟨"sub_1", "plan_R7G6hu5lBKJdpl", none, 500, 1000, none, some "upi",
          some "u1"⟩ : SubEntity).notesUserId = some "u1" ∧
      ("u1" : String) ≠ "" ∧
      getPlanDetails "plan_R7G6hu5lBKJdpl" = some ⟨.BASIC, .MONTHLY, 8900⟩) ∧
    ((applyGatewayEvent 0 .charged
        ⟨"sub_1", "plan_R7G6hu5lBKJdpl", none, 500, 1000, none, some "upi", some "u1"⟩
        (some ⟨Tier.NONE, none⟩)).1.bind TierEntity.billing).bind
      BillingInfo.subscriptionEndDate = some (1000 * 1000) :=
  ⟨⟨Or.inl rfl, rfl, by decide, rfl⟩,
   period_end_last_write_wins 0 .charged
     ⟨"sub_1", "plan_R7G6hu5lBKJdpl", none, 500, 1000, none, some "upi", some "u1"⟩
     ⟨Tier.NONE, none⟩ "u1" ⟨.BASIC, .MONTHLY, 8900⟩ (Or.inl rfl) rfl (by decide) rfl⟩

/-- C4 counterexample: a subscription.cancelled event whose `ended_at` is 0
satisfies "ended_at less than or equal to now" (now = 1000), yet the
JavaScript truthiness test `subscription.ended_at && …` routes it to the
grace-period branch: the tier is kept at BASIC instead of being cleared to
NONE. -/
theorem cancelled_zero_ended_at_keeps_tier :
    (0 : Int) ≤ 1000 ∧
    (handleSubscriptionCancelled 1000
        ⟨"sub_1", "plan_R7G6hu5lBKJdpl", none, 0, 0, some 0, some "upi", some "u1"⟩
        (some ⟨Tier.BASIC, some
          { renewalPeriod := some .MONTHLY, trialStartDate := none, trialEndDate := none,
            subscriptionStartDate := some 0, subscriptionEndDate := some 2000000000,
            razorpaySubscriptionId := some "sub_1", razorpayCustomerId := none,
            paymentMethod := some "upi", isCancelled := some false,
            cancellationDate := none,
            isConfirmationSent := some true }⟩)).map TierEntity.tier = some Tier.BASIC ∧
    Tier.BASIC ≠ Tier.NONE := by
  refine ⟨by decide, rfl, by decide⟩

/-- C4 amended: a cancelled event whose `ended_at` is absent, zero, or in
the future leaves the tier unchanged, keeps the billing-period fields and
sets the cancellation marker; a subsequent cancelled event whose `ended_at`
is nonzero and at most now clears the entitlement: the tier becomes NONE
and the billing-period fields are cleared. -/
theorem cancelled_grace_then_ended (nowSec1 nowSec2 : Int) (sub1 sub2 : SubEntity)
    (t : TierEntity)
    (h1 : sub1.ended_at = none ∨ ∃ z, sub1.ended_at = some z ∧ (z = 0 ∨ nowSec1 < z))
    (h2 : ∃ z, sub2.ended_at = some z ∧ z ≠ 0 ∧ z ≤ nowSec2) :
    ∃ t1, handleSubscriptionCancelled nowSec1 sub1 (some t) = some t1 ∧
      t1.tier = t.tier ∧
      t1.billing.bind BillingInfo.isCancelled = some true ∧
      t1.billing.bind BillingInfo.subscriptionStartDate =
        t.billing.bind BillingInfo.subscriptionStartDate ∧
      t1.billing.bind BillingInfo.subscriptionEndDate =
        t.billing.bind BillingInfo.subscriptionEndDate ∧
      t1.billing.bind BillingInfo.renewalPeriod =
        t.billing.bind BillingInfo.renewalPeriod ∧
      ∃ t2, handleSubscriptionCancelled nowSec2 sub2 (some t1) = some t2 ∧
        t2.tier = .NONE ∧
        t2.billing.bind BillingInfo.renewalPeriod = none ∧
        t2.billing.bind BillingInfo.subscriptionStartDate = none ∧
        t2.billing.bind BillingInfo.subscriptionEndDate = none ∧
        t2.billing.bind BillingInfo.isCancelled = some true := by
  obtain ⟨z2, hz2, hz2ne, hz2le⟩ := h2
  have step2 : ∀ t1 : TierEntity,
      ∃ t2, handleSubscriptionCancelled nowSec2 sub2 (some t1) = some t2 ∧
        t2.tier = .NONE ∧
        t2.billing.bind BillingInfo.renewalPeriod = none ∧
        t2.billing.bind BillingInfo.subscriptionStartDate = none ∧
        t2.billing.bind BillingInfo.subscriptionEndDate = none ∧
        t2.billing.bind BillingInfo.isCancelled = some true := by
    intro t1
    refine ⟨⟨.NONE, some
      { renewalPeriod := none
        subscriptionStartDate := none
        subscriptionEndDate := none
        razorpaySubscriptionId := none
        razorpayCustomerId := t1.billing.bind BillingInfo.razorpayCustomerId
        paymentMethod := t1.billing.bind BillingInfo.paymentMethod
        trialStartDate := none
        trialEndDate := none
        isConfirmationSent := some false
        isCancelled := some true
        cancellationDate := some (nowSec2 * 1000) }⟩, ?_, rfl, rfl, rfl, rfl, rfl⟩
    simp [handleSubscriptionCancelled, hz2, hz2ne, hz2le, updateUserTier]
  have grace : ∀ (hE : (match sub1.ended_at with
      | none => false
      | some e => if e = 0 then false else decide (e ≤ nowSec1)) = false),
      ∃ t1, handleSubscriptionCancelled nowSec1 sub1 (some t) = some t1 ∧
        t1.tier = t.tier ∧
        t1.billing.bind BillingInfo.isCancelled = some true ∧
        t1.billing.bind BillingInfo.subscriptionStartDate =
          t.billing.bind BillingInfo.subscriptionStartDate ∧
        t1.billing.bind BillingInfo.subscriptionEndDate =
          t.billing.bind BillingInfo.subscriptionEndDate ∧
        t1.billing.bind BillingInfo.renewalPeriod =
          t.billing.bind BillingInfo.renewalPeriod ∧
        ∃ t2, handleSubscriptionCancelled nowSec2 sub2 (some t1) = some t2 ∧
          t2.tier = .NONE ∧
          t2.billing.bind BillingInfo.renewalPeriod = none ∧
          t2.billing.bind BillingInfo.subscriptionStartDate = none ∧
          t2.billing.bind BillingInfo.subscriptionEndDate = none ∧
          t2.billing.bind BillingInfo.isCancelled = some true := by
    intro hE
    refine ⟨⟨t.tier, some
      { renewalPeriod := t.billing.bind BillingInfo.renewalPeriod
        trialStartDate := t.billing.bind BillingInfo.trialStartDate
        trialEndDate := t.billing.bind BillingInfo.trialEndDate
        subscriptionStartDate := t.billing.bind BillingInfo.subscriptionStartDate
        subscriptionEndDate := t.billing.bind BillingInfo.subscriptionEndDate
        razorpayCustomerId := t.billing.bind BillingInfo.razorpayCustomerId
        paymentMethod := t.billing.bind BillingInfo.paymentMethod
        isConfirmationSent := t.billing.bind BillingInfo.isConfirmationSent
        isCancelled := some true
        cancellationDate := some (nowSec1 * 1000)
        razorpaySubscriptionId := none }⟩, ?_, rfl, rfl, rfl, rfl, rfl, step2 _⟩
    simp only [handleSubscriptionCancelled, hE, Bool.false_eq_true, if_false,
      updateUserTier, Option.map_some']
  rcases h1 with hnone | ⟨z, hz, rfl | hzfut⟩
  · exact grace (by simp [hnone])
  · exact grace (by simp [hz])
  · exact grace (by simp [hz]; omega)

/-- C4 witness: the two-phase cancellation evaluated at a concrete record
with a future period end, first a cancelled event without `ended_at`, then
one with `ended_at` = 500 at now = 1000. -/
theorem cancelled_grace_then_ended_witness :
    ((⟨"sub_1", "p", none, 0, 0, none, none, some "u1"⟩ : SubEntity).ended_at = none ∨
      ∃ z, (⟨"sub_1", "p", none, 0, 0, none, none, some "u1"⟩ : SubEntity).ended_at =
        some z ∧ (z = 0 ∨ (0 : Int) < z)) ∧
    (∃ z, (⟨"sub_1", "p", none, 0, 0, some 500, none, some "u1"⟩ : SubEntity).ended_at =
        some z ∧ z ≠ 0 ∧ z ≤ (1000 : Int)) ∧
    (∃ t1, handleSubscriptionCancelled 0
        ⟨"sub_1", "p", none, 0, 0, none, none, some "u1"⟩
        (some ⟨Tier.PRO, some
          { renewalPeriod := some .MONTHLY, trialStartDate := none, trialEndDate := none,
            subscriptionStartDate := some 0, subscriptionEndDate := some 2000000000,
            razorpaySubscriptionId := some "sub_1", razorpayCustomerId := none,
            paymentMethod := some "upi", isCancelled := some false,
            cancellationDate := none, isConfirmationSent := some true }⟩) = some t1 ∧
      t1.tier = (⟨Tier.PRO, some
          { renewalPeriod := some .MONTHLY, trialStartDate := none, trialEndDate := none,
            subscriptionStartDate := some 0, subscriptionEndDate := some 2000000000,
            razorpaySubscriptionId := some "sub_1", razorpayCustomerId := none,
            paymentMethod := some "upi", isCancelled := some false,
            cancellationDate := none,
            isConfirmationSent := some true }⟩ : TierEntity).tier ∧
      t1.billing.bind BillingInfo.isCancelled = some true ∧
      t1.billing.bind BillingInfo.subscriptionStartDate =
        (⟨Tier.PRO, some
          { renewalPeriod := some .MONTHLY, trialStartDate := none, trialEndDate := none,
            subscriptionStartDate := some 0, subscriptionEndDate := some 2000000000,
            razorpaySubscriptionId := some "sub_1", razorpayCustomerId := none,
            paymentMethod := some "upi", isCancelled := some false,
            cancellationDate := none,
            isConfirmationSent := some true }⟩ : TierEntity).billing.bind
          BillingInfo.subscriptionStartDate ∧
      t1.billing.bind BillingInfo.subscriptionEndDate =
        (⟨Tier.PRO, some
          { renewalPeriod := some .MONTHLY, trialStartDate := none, trialEndDate := none,
            subscriptionStartDate := some 0, subscriptionEndDate := some 2000000000,
            razorpaySubscriptionId := some "sub_1", razorpayCustomerId := none,
            paymentMethod := some "upi", isCancelled := some false,
            cancellationDate := none,
            isConfirmationSent := some true }⟩ : TierEntity).billing.bind
          BillingInfo.subscriptionEndDate ∧
      t1.billing.bind BillingInfo.renewalPeriod =
        (⟨Tier.PRO, some
          { renewalPeriod := some .MONTHLY, trialStartDate := none, trialEndDate := none,
            subscriptionStartDate := some 0, subscriptionEndDate := some 2000000000,
            razorpaySubscriptionId := some "sub_1", razorpayCustomerId := none,
            paymentMethod := some "upi", isCancelled := some false,
            cancellationDate := none,
            isConfirmationSent := some true }⟩ : TierEntity).billing.bind
          BillingInfo.renewalPeriod ∧
      ∃ t2, handleSubscriptionCancelled 1000
          ⟨"sub_1", "p", none, 0, 0, some 500, none, some "u1"⟩ (some t1) = some t2 ∧
        t2.tier = .NONE ∧
        t2.billing.bind BillingInfo.renewalPeriod = none ∧
        t2.billing.bind BillingInfo.subscriptionStartDate = none ∧
        t2.billing.bind BillingInfo.subscriptionEndDate = none ∧
        t2.billing.bind BillingInfo.isCancelled = some true) :=
  ⟨Or.inl rfl, ⟨500, rfl, by decide, by decide⟩,
   cancelled_grace_then_ended 0 1000
     ⟨"sub_1", "p", none, 0, 0, none, none, some "u1"⟩
     ⟨"sub_1", "p", none, 0, 0, some 500, none, some "u1"⟩
     ⟨Tier.PRO, some
       { renewalPeriod := some .MONTHLY, trialStartDate := none, trialEndDate := none,
         subscriptionStartDate := some 0, subscriptionEndDate := some 2000000000,
         razorpaySubscriptionId := some "sub_1", razorpayCustomerId := none,
         paymentMethod := some "upi", isCancelled := some false,
         cancellationDate := none, isConfirmationSent := some true }⟩
     (Or.inl rfl) ⟨500, rfl, by decide, by decide⟩⟩

/-- Plan catalog of the second revision of `src/lib/billing-config.ts`
(two monthly plans, ₹999 and ₹2999 in paise). -/
def getPlanDetails2 (planId : String) : Option PlanDetails :=
  if planId = "plan_R7BqkdMkgrZtTS" then some ⟨.BASIC, .MONTHLY, 99900⟩
  else if planId = "plan_R7Br0ZKLvh9HXT" then some ⟨.PRO, .MONTHLY, 299900⟩
  else none

/-- Notes of the subscription entity consumed by the second-revision
webhook handlers (`notes.userId`, `notes.planId`, `notes.isUpgrade`);
user ids are taken after the `USER#` prefix strip. -/
structure SubNotes2 where
  userId : Option String
  planId : Option String
  isUpgrade : Option String
deriving DecidableEq

/-- Subscription entity of the second-revision webhook payload. -/
structure SubEntity2 where
  id : String
  notes : SubNotes2
deriving DecidableEq

/-- A document of the Firestore `tier` collection, reduced to the fields the
second-revision activated handler reads or writes.  Timestamps are epoch
milliseconds. -/
structure TierDoc where
  userId : String
  tier : Tier
  renewalPeriod : Option RenewalPeriod
  razorpaySubscriptionId : Option String
  newSubscriptionId : Option String
  newPlanId : Option String
  subscriptionStartDate : Option Int
  subscriptionEndDate : Option Int
  upgradeInProgress : Option Bool
  subscriptionTransitioned : Option Bool
  transitionedAt : Option Int
deriving DecidableEq

/-- `getUserTier` of `src/lib/firebase.ts`: the first document of the query
by user id, if any. -/
def getUserTierDoc (store : List TierDoc) (uid : String) : Option TierDoc :=
  store.find? fun d => d.userId = uid

/-- `createUserTier` of `src/lib/firebase.ts` lines 58-69: an unconditional
`db.collection('tier').add(...)` — a new document is appended with no
existence check. -/
def createUserTierDoc (store : List TierDoc) (d : TierDoc) : List TierDoc :=
  store ++ [d]

/-- `updateUserTier` of `src/lib/firebase.ts`: update the first document
matching the user id; no-op when none matches. -/
def updateFirstDoc (store : List TierDoc) (uid : String) (f : TierDoc → TierDoc) :
    List TierDoc :=
  match store with
  | [] => []
  | d :: rest => if d.userId = uid then f d :: rest else d :: updateFirstDoc rest uid f

/-- `handleSubscriptionActivated` of the second revision of
`src/app/api/webhook/route.ts` (lines 561-644).  `nextBillingMs` stands for
the source's calendar computation `now + 1 month` or `now + 1 year`.  An
upgrade activation whose id matches the stored `newSubscriptionId` updates
the existing record in place (the gateway-side cancel of the old
subscription has no record effect); every other activation reaching this
point appends a fresh tier document through `createUserTier`. -/
def handleSubscriptionActivated2 (sub : SubEntity2) (nowMs nextBillingMs : Int)
    (store : List TierDoc) : List TierDoc :=
  match sub.notes.userId, sub.notes.planId with
  | some uid, some pid =>
    if uid = "" ∨ pid = "" then store
    else
      match getPlanDetails2 pid with
      | none => store
      | some pd =>
        let freshDoc : TierDoc :=
          { userId := uid
            tier := pd.tier
            renewalPeriod := some pd.renewalPeriod
            razorpaySubscriptionId := some sub.id
            newSubscriptionId := none
            newPlanId := none
            subscriptionStartDate := some nowMs
            subscriptionEndDate := some nextBillingMs
            upgradeInProgress := none
            subscriptionTransitioned := none
            transitionedAt := none }
        if sub.notes.isUpgrade = some "true" then
          match getUserTierDoc store uid with
          | some cur =>
            if cur.newSubscriptionId = some sub.id then
              updateFirstDoc store uid fun d =>
                { d with
                    tier := pd.tier
                    razorpaySubscriptionId := some sub.id
                    subscriptionStartDate := some nowMs
                    subscriptionEndDate := some nextBillingMs
                    renewalPeriod := some pd.renewalPeriod
                    upgradeInProgress := some false
                    newSubscriptionId := none
                    newPlanId := none
                    subscriptionTransitioned := some true
                    transitionedAt := some nowMs }
            else createUserTierDoc store freshDoc
          | none => createUserTierDoc store freshDoc
        else createUserTierDoc store freshDoc
  | _, _ => store

/-- Number of tier documents stored for one user. -/
def countUserDocs (store : List TierDoc) (uid : String) : Nat :=
  (store.filter fun d => d.userId = uid).length

/-- C5: `createUserTier` is an unconditional `collection.add`, so a
non-upgrade subscription.activated event delivered for a user who already
has a tier document appends a second document: the store then holds two
`SubscriptionRecord`s for that user, refuting create-if-absent. -/
theorem duplicate_tier_doc_on_activation :
    countUserDocs
      (handleSubscriptionActivated2
        ⟨"sub_2", ⟨some "u1", some "plan_R7BqkdMkgrZtTS", none⟩⟩ 0 2592000000
        [{ userId := "u1", tier := .BASIC, renewalPeriod := some .MONTHLY,
           razorpaySubscriptionId := some "sub_1", newSubscriptionId := none,
           newPlanId := none, subscriptionStartDate := some 0,
           subscriptionEndDate := some 2592000000, upgradeInProgress := none,
           subscriptionTransitioned := none, transitionedAt := none }])
      "u1" = 2 ∧
    countUserDocs
      [{ userId := "u1", tier := .BASIC, renewalPeriod := some .MONTHLY,
         razorpaySubscriptionId := some "sub_1", newSubscriptionId := none,
         newPlanId := none, subscriptionStartDate := some 0,
         subscriptionEndDate := some 2592000000, upgradeInProgress := none,
         subscriptionTransitioned := none, transitionedAt := none }] "u1" = 1 := by
  constructor
  · rfl
  · rfl

/-- JavaScript `Math.round` on a nonnegative rational: floor of x + 1/2. -/
def jsRound (x : ℚ) : ℤ := ⌊x + 1 / 2⌋

/-- Modelled from the spec: `calculateRefundAmount` is imported from
'@/lib/billing-config' by the cancel+refund+create revision in
`src/unnamed/part_003` (line 884), but no revision of billing-config under
src defines it.  The definition follows the spec's words (section 4.1,
`refundForUnusedPeriod`): round(paidAmountMinor / cycleLengthDays *
(cycleLengthDays - daysUsed)), with a floor of a minimum non-zero refund of
at least 100 minor units whenever unused days > 0, else 0. -/
def refundForUnusedPeriod (paidAmountMinor daysUsed cycleLengthDays : ℤ) : ℤ :=
  let unusedDays := cycleLengthDays - daysUsed
  if 0 < unusedDays then
    max 100 (jsRound ((paidAmountMinor : ℚ) / (cycleLengthDays : ℚ) * (unusedDays : ℚ)))
  else 0

/-- C6: the refund equals the rounded pro-rata amount for the unused days
floored to a minimum of 100 minor units whenever unused days are positive,
and 0 when no unused day remains; in particular 8900/29/30 gives 297 and
8900/30/30 gives 0. -/
theorem refund_for_unused_period_spec :
    refundForUnusedPeriod 8900 29 30 = 297 ∧
    refundForUnusedPeriod 8900 30 30 = 0 ∧
    (∀ p u c : ℤ, c - u ≤ 0 → refundForUnusedPeriod p u c = 0) ∧
    (∀ p u c : ℤ, 0 < c - u →
       refundForUnusedPeriod p u c =
         max 100 (jsRound ((p : ℚ) / (c : ℚ) * (((c - u : ℤ) : ℚ))))) := by
  refine ⟨?_, ?_, ?_, ?_⟩
  · norm_num [refundForUnusedPeriod, jsRound]
  · norm_num [refundForUnusedPeriod]
  · intro p u c h
    simp [refundForUnusedPeriod, not_lt.mpr h]
  · intro p u c h
    simp [refundForUnusedPeriod, h]

/-- C6 witness: the general clauses evaluated at concrete inputs. -/
theorem refund_for_unused_period_spec_witness :
    ((3 : ℤ) - 7 ≤ 0 ∧ refundForUnusedPeriod 5 7 3 = 0) ∧
    (0 < (30 : ℤ) - 29 ∧
      refundForUnusedPeriod 8900 29 30 =
        max 100 (jsRound ((8900 : ℚ) / (30 : ℚ) * ((((30 : ℤ) - 29 : ℤ) : ℚ))))) :=
  ⟨⟨by decide, refund_for_unused_period_spec.2.2.1 5 7 3 (by decide)⟩,
   ⟨by decide, refund_for_unused_period_spec.2.2.2 8900 29 30 (by decide)⟩⟩

/-- Ceiling division on integers, modelling JavaScript `Math.ceil(a / b)`
for a positive divisor. -/
def ceilDivInt (a b : Int) : Int := -((-a).ediv b)

/-- `calculateRemainingCount` of `src/app/api/change-plan/route.ts` lines
18-79.  `currentEndDate` is the stored `billing.subscriptionEndDate` in
epoch milliseconds; days remaining are `Math.ceil((end - now) / 86400000)`.
The try/catch fallback of the source can only fire on unparseable dates,
which the embedding has no representation for. -/
def calculateRemainingCount (currentEndDate : Option Int) (nowMs : Int)
    (target : RenewalPeriod) : Int :=
  match currentEndDate with
  | none => if target = .MONTHLY then 12 else 5
  | some endMs =>
    let daysRemaining := ceilDivInt (endMs - nowMs) 86400000
    if daysRemaining ≤ 0 then 1
    else if target = .MONTHLY then max 1 (min 36 (ceilDivInt daysRemaining 30))
    else max 1 (min 10 (ceilDivInt daysRemaining 365))

/-- C8 counterexample: with 400 days remaining before the stored period
end, the monthly remaining-count is ceil(400 / 30) = 14, already inside the
[1, 36] clamp — not 36 as the claim states. -/
theorem remaining_count_400_days_is_14 :
    calculateRemainingCount (some 34560000000) 0 .MONTHLY = 14 ∧ (14 : Int) ≠ 36 := by
  constructor
  · rfl
  · decide

/-- C8 amended: `calculateRemainingCount` converts the days remaining until
the stored period end into whole target-period units rounding up, clamped
to [1, 36] for a monthly target and [1, 10] for an annual target, returns
the default (12 monthly, 5 annual) when the period end is absent, and
returns 1 when the period end has already passed; for a monthly target with
400 days remaining it returns 14 (= ceil(400/30), within the clamp). -/
theorem remaining_count_amended (nowMs endMs : Int) (target : RenewalPeriod) :
    (calculateRemainingCount none nowMs target = if target = .MONTHLY then 12 else 5) ∧
    (ceilDivInt (endMs - nowMs) 86400000 ≤ 0 →
       calculateRemainingCount (some endMs) nowMs target = 1) ∧
    (0 < ceilDivInt (endMs - nowMs) 86400000 →
       calculateRemainingCount (some endMs) nowMs .MONTHLY =
         max 1 (min 36 (ceilDivInt (ceilDivInt (endMs - nowMs) 86400000) 30)) ∧
       calculateRemainingCount (some endMs) nowMs .ANNUAL =
         max 1 (min 10 (ceilDivInt (ceilDivInt (endMs - nowMs) 86400000) 365))) ∧
    (1 ≤ calculateRemainingCount (some endMs) nowMs target ∧
       calculateRemainingCount (some endMs) nowMs .MONTHLY ≤ 36 ∧
       calculateRemainingCount (some endMs) nowMs .ANNUAL ≤ 10) ∧
    calculateRemainingCount (some 34560000000) 0 .MONTHLY = 14 := by
  refine ⟨rfl, ?_, ?_, ⟨?_, ?_, ?_⟩, rfl⟩
  · intro h
    simp [calculateRemainingCount, h]
  · intro h
    constructor <;> simp [calculateRemainingCount, not_le.mpr h]
  · by_cases h : ceilDivInt (endMs - nowMs) 86400000 ≤ 0
    · simp [calculateRemainingCount, h]
    · cases target <;> simp [calculateRemainingCount, h]
  · by_cases h : ceilDivInt (endMs - nowMs) 86400000 ≤ 0
    · simp [calculateRemainingCount, h]
    · simp [calculateRemainingCount, h]
  · by_cases h : ceilDivInt (endMs - nowMs) 86400000 ≤ 0
    · simp [calculateRemainingCount, h]
    · simp [calculateRemainingCount, h]

/-- C8 amended witness: the clauses with hypotheses evaluated at an
already-passed period end and at the 400-days-remaining input. -/
theorem remaining_count_amended_witness :
    (ceilDivInt ((0 : Int) - 1000) 86400000 ≤ 0 ∧
      calculateRemainingCount (some 0) 1000 .MONTHLY = 1) ∧
    (0 < ceilDivInt ((34560000000 : Int) - 0) 86400000 ∧
      calculateRemainingCount (some 34560000000) 0 .MONTHLY =
        max 1 (min 36 (ceilDivInt (ceilDivInt ((34560000000 : Int) - 0) 86400000) 30))) :=
  ⟨⟨by decide, (remaining_count_amended 1000 0 .MONTHLY).2.1 (by decide)⟩,
   ⟨by decide, ((remaining_count_amended 0 34560000000 .MONTHLY).2.2.1 (by decide)).1⟩⟩

/-- String names of tiers as stored in the record. -/
def tierStr : Tier → String
  | .NONE => "NONE"
  | .BASIC => "BASIC"
  | .PRO => "PRO"
  | .TRIAL => "TRIAL"

/-- String names of renewal periods as stored in the record. -/
def renewalStr : RenewalPeriod → String
  | .MONTHLY => "MONTHLY"
  | .ANNUAL => "ANNUAL"

/-- The `VALID_PLAN_CHANGES` table of `src/app/api/change-plan/route.ts`
lines 174-191: all twelve ordered pairs of distinct plans. -/
def VALID_PLAN_CHANGES : List ((String × String) × (String × String)) :=
  [(("BASIC", "MONTHLY"), ("PRO", "MONTHLY")),
   (("BASIC", "MONTHLY"), ("PRO", "ANNUAL")),
   (("BASIC", "ANNUAL"), ("PRO", "MONTHLY")),
   (("BASIC", "ANNUAL"), ("PRO", "ANNUAL")),
   (("BASIC", "MONTHLY"), ("BASIC", "ANNUAL")),
   (("PRO", "MONTHLY"), ("PRO", "ANNUAL")),
   (("PRO", "MONTHLY"), ("BASIC", "MONTHLY")),
   (("PRO", "MONTHLY"), ("BASIC", "ANNUAL")),
   (("PRO", "ANNUAL"), ("BASIC", "MONTHLY")),
   (("PRO", "ANNUAL"), ("BASIC", "ANNUAL")),
   (("BASIC", "ANNUAL"), ("BASIC", "MONTHLY")),
   (("PRO", "ANNUAL"), ("PRO", "MONTHLY"))]

/-- The `hasActiveSubscription` test of `src/app/api/change-plan/route.ts`
lines 148-153: billing present, a truthy subscription id, `isCancelled` not
truthy, tier BASIC or PRO. -/
def hasActiveSubscription (t : TierEntity) : Bool :=
  match t.billing with
  | none => false
  | some b =>
    (match b.razorpaySubscriptionId with
     | some sid => !(sid == "")
     | none => false) &&
    !(b.isCancelled == some true) &&
    (t.tier == Tier.BASIC || t.tier == Tier.PRO)

/-- Validation error responses of the change-plan POST handler. -/
inductive ChangePlanError
  | missingFields
  | invalidTargetTier
  | invalidPlanConfig
  | userNotFound
  | noActiveSubscription
  | alreadyOnPlan
  | invalidPlanChange
deriving DecidableEq

/-- Payment-gateway calls a flow may issue. -/
inductive GatewayCall
  | createSubscription (planId : String)
  | cancelSubscription (subId : String)
  | updateSubscription (subId : String) (planId : String) (remainingCount : Int)
  | createInvoice (subId : String) (amountMinor : Int)
deriving DecidableEq

/-- Result of the change-plan POST handler: a validation error, or the flow
that was dispatched. -/
inductive ChangePlanOutcome
  | err (e : ChangePlanError)
  | okUpi
  | okNoSub
  | okCard
deriving DecidableEq

/-- Whether an outcome is a validation error. -/
def ChangePlanOutcome.isErr : ChangePlanOutcome → Bool
  | .err _ => true
  | _ => false

/-- Request body of the change-plan POST handler; a missing field is `none`
and an empty string is falsy like in the source. -/
structure PlanChangeRequest where
  username : String
  targetTier : Option String
  targetRenewalPeriod : Option String
deriving DecidableEq

/-- The validation prefix of the POST handler of
`src/app/api/change-plan/route.ts` lines 100-216, in source order: required
fields, target tier, plan config, record existence, active subscription,
already-on-plan, valid-transition table.  On success it returns the record,
the target plan and the target plan id for flow dispatch. -/
def changePlanValidate (req : PlanChangeRequest) (r : Option TierEntity) :
    Except ChangePlanError (TierEntity × PlanDetails × String) :=
  if req.username = "" ∨ req.targetTier = none ∨ req.targetTier = some "" ∨
      req.targetRenewalPeriod = none ∨ req.targetRenewalPeriod = some "" then
    .error .missingFields
  else
    let tt := req.targetTier.getD ""
    let tp := req.targetRenewalPeriod.getD ""
    if tt = "BASIC" ∨ tt = "PRO" then
      let newPlanId :=
        if tt = "BASIC" then
          (if tp = "ANNUAL" then "plan_R7G8xw8x4WDSoM" else "plan_R7G6hu5lBKJdpl")
        else
          (if tp = "ANNUAL" then "plan_R7G9duBj5HV9Oz" else "plan_R7G7VNbsYt55dG")
      match getPlanDetails newPlanId with
      | none => .error .invalidPlanConfig
      | some newPd =>
        match r with
        | none => .error .userNotFound
        | some t =>
          if hasActiveSubscription t = false then .error .noActiveSubscription
          else
            let currentRenewal := (t.billing.bind BillingInfo.renewalPeriod).map renewalStr
            if tierStr t.tier = tt ∧ currentRenewal = some tp then .error .alreadyOnPlan
            else
              let ok := VALID_PLAN_CHANGES.any fun c =>
                c.1.1 == tierStr t.tier && some c.1.2 == currentRenewal &&
                  c.2.1 == tt && c.2.2 == tp
              if ok = false then .error .invalidPlanChange
              else .ok (t, newPd, newPlanId)
    else .error .invalidTargetTier

/-- The POST handler of `src/app/api/change-plan/route.ts` lines 100-289:
validation followed by flow dispatch — the UPI flow creates the new gateway
subscription then cancels the old one, the no-subscription-id flow creates
a subscription, the card flow issues an in-place update with the computed
remaining count.  None of the flows of this revision mutates the record
(the webhook is left to do it); the third component is the record
afterwards. -/
def changePlanPOST (req : PlanChangeRequest) (r : Option TierEntity) (nowMs : Int) :
    ChangePlanOutcome × List GatewayCall × Option TierEntity :=
  match changePlanValidate req r with
  | .error e => (.err e, [], r)
  | .ok (t, newPd, newPlanId) =>
    let paymentMethod := t.billing.bind BillingInfo.paymentMethod
    let subIdOpt := t.billing.bind BillingInfo.razorpaySubscriptionId
    let currentSubId := subIdOpt.getD ""
    if paymentMethod = some "upi" then
      (.okUpi,
       GatewayCall.createSubscription newPlanId ::
         (if currentSubId = "" then [] else [GatewayCall.cancelSubscription currentSubId]),
       r)
    else if subIdOpt = none ∨ subIdOpt = some "" then
      (.okNoSub, [GatewayCall.createSubscription newPlanId], r)
    else
      (.okCard,
       [GatewayCall.updateSubscription currentSubId newPlanId
          (calculateRemainingCount (t.billing.bind BillingInfo.subscriptionEndDate) nowMs
            newPd.renewalPeriod)],
       r)

/-- An active record has tier BASIC or PRO. -/
lemma hasActive_tier {t : TierEntity} (h : hasActiveSubscription t = true) :
    t.tier = .BASIC ∨ t.tier = .PRO := by
  unfold hasActiveSubscription at h
  rcases hb : t.billing with _ | b <;> rw [hb] at h
  · simp at h
  · simp only [Bool.and_eq_true, Bool.or_eq_true, beq_iff_eq] at h
    exact h.2

/-- C7: every plan-change request that fails validation returns a specific
error outcome with no gateway call and no record mutation; in particular a
request whose target equals the current plan (with the earlier validations
passing) yields the already-on-plan error with zero gateway calls. -/
theorem change_plan_validation_safe (req : PlanChangeRequest) (r : Option TierEntity)
    (nowMs : Int) :
    ((changePlanPOST req r nowMs).1.isErr = true →
       (changePlanPOST req r nowMs).2.1 = [] ∧ (changePlanPOST req r nowMs).2.2 = r) ∧
    (∀ t rp, r = some t → req.username ≠ "" →
       req.targetTier = some (tierStr t.tier) →
       t.billing.bind BillingInfo.renewalPeriod = some rp →
       req.targetRenewalPeriod = some (renewalStr rp) →
       hasActiveSubscription t = true →
       (changePlanPOST req r nowMs).1 = .err .alreadyOnPlan ∧
       (changePlanPOST req r nowMs).2.1 = [] ∧ (changePlanPOST req r nowMs).2.2 = r) := by
  constructor
  · intro herr
    rcases hv : changePlanValidate req r with e | ⟨t, pd, pid⟩
    · simp [changePlanPOST, hv]
    · exfalso
      rw [changePlanPOST] at herr
      rw [hv] at herr
      revert herr
      simp only []
      split_ifs <;> simp [ChangePlanOutcome.isErr]
  · intro t rp hr huser htt hrp htp hact
    have hv : changePlanValidate req r = .error .alreadyOnPlan := by
      subst hr
      rcases hasActive_tier hact with h4 | h4 <;> cases rp <;>
        simp [changePlanValidate, huser, htt, htp, h4, hrp, tierStr, renewalStr,
          hact, getPlanDetails]
    simp [changePlanPOST, hv]

/-- C7 witness: a BASIC/MONTHLY user requesting BASIC/MONTHLY receives the
already-on-plan error with zero gateway calls and an unchanged record. -/
theorem change_plan_validation_safe_witness :
    some (⟨Tier.BASIC, some
        { renewalPeriod := some .MONTHLY, trialStartDate := none, trialEndDate := none,
          subscriptionStartDate := some 0, subscriptionEndDate := some 2592000000,
          razorpaySubscriptionId := some "sub_1", razorpayCustomerId := none,
          paymentMethod := some "upi", isCancelled := some false,
          cancellationDate := none, isConfirmationSent := some true }⟩ : TierEntity) =
      some ⟨Tier.BASIC, some
        { renewalPeriod := some .MONTHLY, trialStartDate := none, trialEndDate := none,
          subscriptionStartDate := some 0, subscriptionEndDate := some 2592000000,
          razorpaySubscriptionId := some "sub_1", razorpayCustomerId := none,
          paymentMethod := some "upi", isCancelled := some false,
          cancellationDate := none, isConfirmationSent := some true }⟩ ∧
      ("u1" : String) ≠ "" ∧
      (changePlanPOST ⟨"u1", some "BASIC", some "MONTHLY"⟩
          (some ⟨Tier.BASIC, some
            { renewalPeriod := some .MONTHLY, trialStartDate := none, trialEndDate := none,
              subscriptionStartDate := some 0, subscriptionEndDate := some 2592000000,
              razorpaySubscriptionId := some "sub_1", razorpayCustomerId := none,
              paymentMethod := some "upi", isCancelled := some false,
              cancellationDate := none, isConfirmationSent := some true }⟩) 0).1 =
        .err .alreadyOnPlan ∧
      (changePlanPOST ⟨"u1", some "BASIC", some "MONTHLY"⟩
          (some ⟨Tier.BASIC, some
            { renewalPeriod := some .MONTHLY, trialStartDate := none, trialEndDate := none,
              subscriptionStartDate := some 0, subscriptionEndDate := some 2592000000,
              razorpaySubscriptionId := some "sub_1", razorpayCustomerId := none,
              paymentMethod := some "upi", isCancelled := some false,
              cancellationDate := none, isConfirmationSent := some true }⟩) 0).2.1 = [] :=
  ⟨rfl, by decide,
   ((change_plan_validation_safe ⟨"u1", some "BASIC", some "MONTHLY"⟩
        (some ⟨Tier.BASIC, some
          { renewalPeriod := some .MONTHLY, trialStartDate := none, trialEndDate := none,
            subscriptionStartDate := some 0, subscriptionEndDate := some 2592000000,
            razorpaySubscriptionId := some "sub_1", razorpayCustomerId := none,
            paymentMethod := some "upi", isCancelled := some false,
            cancellationDate := none, isConfirmationSent := some true }⟩) 0).2
      _ .MONTHLY rfl (by decide) rfl rfl rfl rfl).1,
   ((change_plan_validation_safe ⟨"u1", some "BASIC", some "MONTHLY"⟩
        (some ⟨Tier.BASIC, some
          { renewalPeriod := some .MONTHLY, trialStartDate := none, trialEndDate := none,
            subscriptionStartDate := some 0, subscriptionEndDate := some 2592000000,
            razorpaySubscriptionId := some "sub_1", razorpayCustomerId := none,
            paymentMethod := some "upi", isCancelled := some false,
            cancellationDate := none, isConfirmationSent := some true }⟩) 0).2
      _ .MONTHLY rfl (by decide) rfl rfl rfl rfl).2.1⟩

/-- `getCurrentPlanId` of `src/unnamed/part_003` lines 6-15 (also in
change-plan): map the stored tier and renewal period to the current plan
id; a null renewal period defaults to monthly at the call sites, and any
other tier falls back to basic monthly. -/
def getCurrentPlanId (tier : Tier) (renewalPeriod : Option RenewalPeriod) : String :=
  match tier with
  | .BASIC => if renewalPeriod = some .ANNUAL then "plan_R7G8xw8x4WDSoM"
              else "plan_R7G6hu5lBKJdpl"
  | .PRO => if renewalPeriod = some .ANNUAL then "plan_R7G9duBj5HV9Oz"
            else "plan_R7G7VNbsYt55dG"
  | _ => "plan_R7G6hu5lBKJdpl"

/-- `getDaysRemainingInCycle` of `src/lib/billing-config.ts`:
`Math.max(0, Math.ceil((end - now) / 86400000))`. -/
def getDaysRemainingInCycle (subscriptionEndDateMs nowMs : Int) : Int :=
  max 0 (ceilDivInt (subscriptionEndDateMs - nowMs) 86400000)

/-- `getTotalDaysInCycle` of `src/lib/billing-config.ts`; the call sites
pass `renewalPeriod || "MONTHLY"`, so a null period means 30 days. -/
def getTotalDaysInCycle (renewalPeriod : Option RenewalPeriod) : Int :=
  if renewalPeriod = some .ANNUAL then 365 else 30

/-- Billing sub-record of the upgrade-subscription revision
(`src/unnamed/part_003`), restricted to the fields its UPI flow reads or
writes.  Timestamps are epoch milliseconds. -/
structure UpgradeBilling where
  renewalPeriod : Option RenewalPeriod
  subscriptionEndDate : Option Int
  currentPeriodEnd : Option Int
  razorpaySubscriptionId : Option String
  targetPlanId : Option String
  upgradeInProgress : Option Bool
  transitionAt : Option Int
  status : Option String
  lastPaymentStatus : Option String
  lastPaymentAt : Option Int
  payment_method : Option String
deriving DecidableEq

/-- The tier record as read by the upgrade-subscription revision. -/
structure UpgradeTier where
  tier : Tier
  billing : UpgradeBilling
deriving DecidableEq

/-- Step 1 of `handleUPIUpgrade` (`src/unnamed/part_003` lines 728-756):
the prorated credit for the unused period of the current plan,
`Math.round(currentPlanAmount / totalDays * daysRemaining)`; 0 when no
billing end date is on record. -/
def upiProratedCredit (nowMs : Int) (currentTier : UpgradeTier)
    (billingEndDate : Option Int) : Int :=
  match billingEndDate with
  | none => 0
  | some endMs =>
    let daysRemaining := getDaysRemainingInCycle endMs nowMs
    let totalDays := getTotalDaysInCycle currentTier.billing.renewalPeriod
    let currentPlanAmount : Int :=
      match getPlanDetails (getCurrentPlanId currentTier.tier
          currentTier.billing.renewalPeriod) with
      | some pd => pd.amount
      | none => 0
    jsRound ((currentPlanAmount : ℚ) / (totalDays : ℚ) * (daysRemaining : ℚ))

/-- `handleUPIUpgrade` of `src/unnamed/part_003` lines 711-882.  `newSubId`
is the id the gateway returned for the create call.  A new subscription is
created for the target plan (the old one is left for the webhook to
cancel); when the prorated credit is positive, a discounted first invoice
is created for the target price minus the credit, floored at 0; the record
is then updated: tier and renewal period are set to the target plan,
`razorpaySubscriptionId` to the new id, `targetPlanId` cleared,
`upgradeInProgress` false, status ACTIVE, last payment PAID. -/
def handleUPIUpgrade (nowMs : Int) (newSubId newPlanId : String) (newPlan : PlanDetails)
    (currentTier : UpgradeTier) (billingEndDate : Option Int) :
    List GatewayCall × UpgradeTier :=
  let proratedAmount := upiProratedCredit nowMs currentTier billingEndDate
  let calls :=
    GatewayCall.createSubscription newPlanId ::
      (if 0 < proratedAmount then
        [GatewayCall.createInvoice newSubId (max 0 (newPlan.amount - proratedAmount))]
      else [])
  let updated : UpgradeTier :=
    { tier := newPlan.tier
      billing :=
        { currentTier.billing with
            razorpaySubscriptionId := some newSubId
            renewalPeriod := some newPlan.renewalPeriod
            targetPlanId := none
            upgradeInProgress := some false
            transitionAt := some nowMs
            status := some "ACTIVE"
            lastPaymentStatus := some "PAID"
            lastPaymentAt := some nowMs } }
  (calls, updated)

/-- C9 counterexample: a BASIC/MONTHLY user with 10 days remaining who
upgrades to PRO/MONTHLY has the record's tier set to PRO by
`handleUPIUpgrade` itself, instead of remaining BASIC until the
activated/authenticated webhook arrives. -/
theorem upi_upgrade_sets_tier_immediately :
    (handleUPIUpgrade 0 "sub_new" "plan_R7G7VNbsYt55dG" ⟨.PRO, .MONTHLY, 12900⟩
        ⟨Tier.BASIC,
         { renewalPeriod := some .MONTHLY, subscriptionEndDate := some 864000000,
           currentPeriodEnd := none, razorpaySubscriptionId := some "sub_old",
           targetPlanId := some "plan_R7G7VNbsYt55dG", upgradeInProgress := some true,
           transitionAt := none, status := some "ACTIVE",
           lastPaymentStatus := some "PAID", lastPaymentAt := none,
           payment_method := some "upi" }⟩
        (some 864000000)).2.tier = Tier.PRO ∧
    Tier.PRO ≠ Tier.BASIC := by
  constructor
  · rfl
  · decide

/-- C9 amended: in the mandate-based upgrade flow with a positive prorated
credit, a new gateway subscription is created for the target plan, a
discounted first invoice is created for the target price minus the credit
(floored at 0), the record's gateway subscription id is set to the new id
and `targetPlanId` is cleared — and the record's tier and renewal period
are set to the target plan immediately (optimistically), not left unchanged
until the activated/authenticated webhook. -/
theorem upi_upgrade_amended (nowMs : Int) (newSubId newPlanId : String)
    (newPlan : PlanDetails) (ct : UpgradeTier) (endMs : Int)
    (hcredit : 0 < upiProratedCredit nowMs ct (some endMs)) :
    (handleUPIUpgrade nowMs newSubId newPlanId newPlan ct (some endMs)).1 =
      [GatewayCall.createSubscription newPlanId,
       GatewayCall.createInvoice newSubId
         (max 0 (newPlan.amount - upiProratedCredit nowMs ct (some endMs)))] ∧
    (handleUPIUpgrade nowMs newSubId newPlanId newPlan ct
        (some endMs)).2.billing.razorpaySubscriptionId = some newSubId ∧
    (handleUPIUpgrade nowMs newSubId newPlanId newPlan ct
        (some endMs)).2.billing.targetPlanId = none ∧
    (handleUPIUpgrade nowMs newSubId newPlanId newPlan ct (some endMs)).2.tier =
      newPlan.tier ∧
    (handleUPIUpgrade nowMs newSubId newPlanId newPlan ct
        (some endMs)).2.billing.renewalPeriod = some newPlan.renewalPeriod := by
  refine ⟨?_, rfl, rfl, rfl, rfl⟩
  simp [handleUPIUpgrade, hcredit]

/-- C9 witness: the amended flow evaluated at the BASIC/MONTHLY to
PRO/MONTHLY scenario with 10 of 30 days remaining (credit
round(8900/30*10) = 2967, discounted invoice 12900 - 2967 = 9933). -/
theorem upi_upgrade_amended_witness :
    0 < upiProratedCredit 0
        ⟨Tier.BASIC,
         { renewalPeriod := some .MONTHLY, subscriptionEndDate := some 864000000,
           currentPeriodEnd := none, razorpaySubscriptionId := some "sub_old",
           targetPlanId := some "plan_R7G7VNbsYt55dG", upgradeInProgress := some true,
           transitionAt := none, status := some "ACTIVE",
           lastPaymentStatus := some "PAID", lastPaymentAt := none,
           payment_method := some "upi" }⟩ (some 864000000) ∧
    (handleUPIUpgrade 0 "sub_new" "plan_R7G7VNbsYt55dG" ⟨.PRO, .MONTHLY, 12900⟩
        ⟨Tier.BASIC,
         { renewalPeriod := some .MONTHLY, subscriptionEndDate := some 864000000,
           currentPeriodEnd := none, razorpaySubscriptionId := some "sub_old",
           targetPlanId := some "plan_R7G7VNbsYt55dG", upgradeInProgress := some true,
           transitionAt := none, status := some "ACTIVE",
           lastPaymentStatus := some "PAID", lastPaymentAt := none,
           payment_method := some "upi" }⟩
        (some 864000000)).1 =
      [GatewayCall.createSubscription "plan_R7G7VNbsYt55dG",
       GatewayCall.createInvoice "sub_new"
         (max 0 ((12900 : Int) - upiProratedCredit 0
           ⟨Tier.BASIC,
            { renewalPeriod := some .MONTHLY, subscriptionEndDate := some 864000000,
              currentPeriodEnd := none, razorpaySubscriptionId := some "sub_old",
              targetPlanId := some "plan_R7G7VNbsYt55dG", upgradeInProgress := some true,
              transitionAt := none, status := some "ACTIVE",
              lastPaymentStatus := some "PAID", lastPaymentAt := none,
              payment_method := some "upi" }⟩ (some 864000000)))] ∧
    (handleUPIUpgrade 0 "sub_new" "plan_R7G7VNbsYt55dG" ⟨.PRO, .MONTHLY, 12900⟩
        ⟨Tier.BASIC,
         { renewalPeriod := some .MONTHLY, subscriptionEndDate := some 864000000,
           currentPeriodEnd := none, razorpaySubscriptionId := some "sub_old",
           targetPlanId := some "plan_R7G7VNbsYt55dG", upgradeInProgress := some true,
           transitionAt := none, status := some "ACTIVE",
           lastPaymentStatus := some "PAID", lastPaymentAt := none,
           payment_method := some "upi" }⟩
        (some 864000000)).2.billing.razorpaySubscriptionId = some "sub_new" ∧
    (handleUPIUpgrade 0 "sub_new" "plan_R7G7VNbsYt55dG" ⟨.PRO, .MONTHLY, 12900⟩
        ⟨Tier.BASIC,
         { renewalPeriod := some .MONTHLY, subscriptionEndDate := some 864000000,
           currentPeriodEnd := none, razorpaySubscriptionId := some "sub_old",
           targetPlanId := some "plan_R7G7VNbsYt55dG", upgradeInProgress := some true,
           transitionAt := none, status := some "ACTIVE",
           lastPaymentStatus := some "PAID", lastPaymentAt := none,
           payment_method := some "upi" }⟩
        (some 864000000)).2.billing.targetPlanId = none :=
  have h : 0 < upiProratedCredit 0
      ⟨Tier.BASIC,
       { renewalPeriod := some .MONTHLY, subscriptionEndDate := some 864000000,
         currentPeriodEnd := none, razorpaySubscriptionId := some "sub_old",
         targetPlanId := some "plan_R7G7VNbsYt55dG", upgradeInProgress := some true,
         transitionAt := none, status := some "ACTIVE",
         lastPaymentStatus := some "PAID", lastPaymentAt := none,
         payment_method := some "upi" }⟩ (some 864000000) := by
    have hcat : getPlanDetails (getCurrentPlanId Tier.BASIC (some RenewalPeriod.MONTHLY)) =
        some ⟨Tier.BASIC, RenewalPeriod.MONTHLY, 8900⟩ := rfl
    have hdays : getDaysRemainingInCycle 864000000 0 = 10 := by decide
    have hc : upiProratedCredit 0
        ⟨Tier.BASIC,
         { renewalPeriod := some .MONTHLY, subscriptionEndDate := some 864000000,
           currentPeriodEnd := none, razorpaySubscriptionId := some "sub_old",
           targetPlanId := some "plan_R7G7VNbsYt55dG", upgradeInProgress := some true,
           transitionAt := none, status := some "ACTIVE",
           lastPaymentStatus := some "PAID", lastPaymentAt := none,
           payment_method := some "upi" }⟩ (some 864000000) = 2967 := by
      simp only [upiProratedCredit, hcat, hdays, getTotalDaysInCycle]
      rw [if_neg (show ¬ (some RenewalPeriod.MONTHLY = some RenewalPeriod.ANNUAL) from
        by decide)]
      norm_num [jsRound]
    rw [hc]
    norm_num
  ⟨h,
   (upi_upgrade_amended 0 "sub_new" "plan_R7G7VNbsYt55dG" ⟨.PRO, .MONTHLY, 12900⟩
      ⟨Tier.BASIC,
       { renewalPeriod := some .MONTHLY, subscriptionEndDate := some 864000000,
         currentPeriodEnd := none, razorpaySubscriptionId := some "sub_old",
         targetPlanId := some "plan_R7G7VNbsYt55dG", upgradeInProgress := some true,
         transitionAt := none, status := some "ACTIVE",
         lastPaymentStatus := some "PAID", lastPaymentAt := none,
         payment_method := some "upi" }⟩ 864000000 h).1,
   (upi_upgrade_amended 0 "sub_new" "plan_R7G7VNbsYt55dG" ⟨.PRO, .MONTHLY, 12900⟩
      ⟨Tier.BASIC,
       { renewalPeriod := some .MONTHLY, subscriptionEndDate := some 864000000,
         currentPeriodEnd := none, razorpaySubscriptionId := some "sub_old",
         targetPlanId := some "plan_R7G7VNbsYt55dG", upgradeInProgress := some true,
         transitionAt := none, status := some "ACTIVE",
         lastPaymentStatus := some "PAID", lastPaymentAt := none,
         payment_method := some "upi" }⟩ 864000000 h).2.1,
   (upi_upgrade_amended 0 "sub_new" "plan_R7G7VNbsYt55dG" ⟨.PRO, .MONTHLY, 12900⟩
      ⟨Tier.BASIC,
       { renewalPeriod := some .MONTHLY, subscriptionEndDate := some 864000000,
         currentPeriodEnd := none, razorpaySubscriptionId := some "sub_old",
         targetPlanId := some "plan_R7G7VNbsYt55dG", upgradeInProgress := some true,
         transitionAt := none, status := some "ACTIVE",
         lastPaymentStatus := some "PAID", lastPaymentAt := none,
         payment_method := some "upi" }⟩ 864000000 h).2.2.1⟩

end RazorpaySub
